import Mathlib

/-!
Shallow embedding of the Lightweight-Data-Warehouse pipeline
(src/config/database_config.py, src/config/file_utils.py,
src/config/duckdb_adapter.py, src/config/database_interface.py,
src/extraction/parquet_loader.py, src/transformation/duckdb_reader.py),
with theorems settling the frozen claims about it.

Filesystem paths are modelled as lists of path segments (pathlib's `/`
becomes list append of one segment).  Python `datetime` values are
modelled by their (year, month, day) fields.  Machine integers in the
sources are plain Python ints, so Nat/Int suffice with no wraparound.
-/

namespace DWH

/-! ### Dates and Python formatting helpers -/

/-- The (year, month, day) fields of a Python `datetime`. -/
structure PyDate where
  year : Nat
  month : Nat
  day : Nat
deriving DecidableEq, Repr

/-- Python `f"{n:02d}"` for a nonnegative int: zero-pad to width 2. -/
def pad2 (n : Nat) : String :=
  if n < 10 then "0" ++ Nat.repr n else Nat.repr n

/-- Python `date.strftime("%Y%m%d")`.  `%m`/`%d` zero-pad to two digits;
`%Y` prints the year's digits (datetime years used by this warehouse are
four-digit, where all platforms agree). -/
def strftimeYmd (d : PyDate) : String :=
  Nat.repr d.year ++ pad2 d.month ++ pad2 d.day

/-! ### src/config/database_config.py : constants and path helpers -/

/-- `RAW_DATA_PATH = Path("data/raw/case_history")` as path segments. -/
def RAW_DATA_PATH : List String := ["data", "raw", "case_history"]

/-- `get_raw_data_path(date)`:
`RAW_DATA_PATH / str(date.year) / f"{date.month:02d}" / f"{date.day:02d}"`. -/
def get_raw_data_path (date : PyDate) : List String :=
  RAW_DATA_PATH ++ [Nat.repr date.year, pad2 date.month, pad2 date.day]

/-- `get_raw_file_path(date)`: the folder from `get_raw_data_path` joined
with `f"casos_rrhh_{date.strftime('%Y%m%d')}.parquet"`. -/
def get_raw_file_path (date : PyDate) : List String :=
  get_raw_data_path date ++ ["casos_rrhh_" ++ strftimeYmd date ++ ".parquet"]

/-! ### src/config/file_utils.py : date-range discovery -/

/-- Lexicographic `<=` on dates, as Python compares `datetime` values. -/
def dateLe (a b : PyDate) : Bool :=
  decide (a.year < b.year ∨ (a.year = b.year ∧
    (a.month < b.month ∨ (a.month = b.month ∧ a.day ≤ b.day))))

/-- Gregorian leap-year rule, as implemented by Python `datetime`. -/
def isLeap (y : Nat) : Bool :=
  (y % 4 == 0 && y % 100 != 0) || (y % 400 == 0)

/-- Days in a Gregorian month, as implemented by Python `datetime`. -/
def daysInMonth (y m : Nat) : Nat :=
  if m = 2 then (if isLeap y then 29 else 28)
  else if m = 4 ∨ m = 6 ∨ m = 9 ∨ m = 11 then 30
  else 31

/-- `current + timedelta(days=1)` on a valid date. -/
def nextDay (d : PyDate) : PyDate :=
  if d.day < daysInMonth d.year d.month then ⟨d.year, d.month, d.day + 1⟩
  else if d.month < 12 then ⟨d.year, d.month + 1, 1⟩
  else ⟨d.year + 1, 1, 1⟩

/-- Strictly monotone rank of a valid date, used as loop fuel below. -/
def dateRank (d : PyDate) : Nat :=
  d.year * 372 + d.month * 31 + d.day

/-- The `while current <= end_date` loop body of `list_raw_files_in_range`,
with explicit fuel (for valid dates the fuel chosen by the wrapper is the
exact number of iterations).  `fs` is the set of files present on disk,
each as a segment list; `file_path.exists()` becomes membership in `fs`. -/
def listFilesLoop (fs : List (List String)) (endDate : PyDate) :
    Nat → PyDate → List (List String)
  | 0, _ => []
  | fuel + 1, current =>
    if dateLe current endDate then
      (if fs.contains (get_raw_file_path current)
       then [get_raw_file_path current] else [])
        ++ listFilesLoop fs endDate fuel (nextDay current)
    else []

/-- `list_raw_files_in_range(start_date, end_date)` over filesystem `fs`:
walks day by day from `start_date` to `end_date` inclusive, keeping the
paths from `get_raw_file_path` that exist. -/
def list_raw_files_in_range (fs : List (List String))
    (startDate endDate : PyDate) : List (List String) :=
  listFilesLoop fs endDate (dateRank endDate + 1 - dateRank startDate) startDate

/-! ### src/extraction/parquet_loader.py : write path -/

/-- `ParquetLoader._get_hive_partition_path(extraction_date)`:
`base / f"year={d.year}" / f"month={d.month:02d}" / f"day={d.day:02d}"`. -/
def get_hive_partition_path (base : List String) (d : PyDate) : List String :=
  base ++ ["year=" ++ Nat.repr d.year,
           "month=" ++ pad2 d.month,
           "day=" ++ pad2 d.day]

/-- The filename built by `ParquetLoader._save_to_parquet`:
`f"case_history_{extraction_date.strftime('%Y%m%d')}.parquet"`. -/
def save_filename (d : PyDate) : String :=
  "case_history_" ++ strftimeYmd d ++ ".parquet"

/-- The full output path written by `ParquetLoader._save_to_parquet`:
partition directory joined with the filename. -/
def save_output_path (base : List String) (d : PyDate) : List String :=
  get_hive_partition_path base d ++ [save_filename d]

/-! ### src/transformation/duckdb_reader.py : query construction

Every Reader method reads the whole partitioned tree with
`read_parquet('<raw>/**/*.parquet', hive_partitioning = true)` and applies
a WHERE clause over the partition columns `year`, `month`, `day` (plus,
for `query_cases`, arbitrary caller SQL).  The engine's semantics on the
partitioned tree is modelled by a list of rows carrying the inferred
partition columns and an abstract payload; a WHERE clause made of
comparisons on partition columns is modelled as the list of atomic
comparisons the Python code concatenates with " AND ". -/

/-- One row of the partitioned tree: the hive-inferred partition columns
plus the remaining (non-partition) columns, abstracted as `payload`. -/
structure CaseRow where
  year : Nat
  month : Nat
  day : Nat
  payload : Nat
deriving DecidableEq, Repr

/-- A partition column named in a WHERE clause. -/
inductive PCol where
  | year
  | month
  | day
deriving DecidableEq, Repr

/-- A comparison operator appearing in the Reader's WHERE clauses. -/
inductive PCmp where
  | geC
  | leC
  | eqC
deriving DecidableEq, Repr

/-- One atomic comparison `col cmp v` of a WHERE clause. -/
structure PCond where
  col : PCol
  cmp : PCmp
  v : Nat
deriving DecidableEq, Repr

/-- Value of a partition column in a row. -/
def colVal (r : CaseRow) : PCol → Nat
  | .year => r.year
  | .month => r.month
  | .day => r.day

/-- SQL truth of one atomic comparison on a row. -/
def evalCond (r : CaseRow) (c : PCond) : Bool :=
  match c.cmp with
  | .geC => decide (c.v ≤ colVal r c.col)
  | .leC => decide (colVal r c.col ≤ c.v)
  | .eqC => decide (colVal r c.col = c.v)

/-- SQL truth of an AND-joined list of atomic comparisons on a row. -/
def evalWhere (r : CaseRow) (cs : List PCond) : Bool :=
  cs.all (evalCond r)

/-- The WHERE clause built by `read_cases_by_date_range(start_date, end_date)`:
`year >= start.year AND year <= end.year AND month >= start.month AND
month <= end.month`, transcribed comparison by comparison. -/
def date_range_where (startDate endDate : PyDate) : List PCond :=
  [⟨.year, .geC, startDate.year⟩,
   ⟨.year, .leC, endDate.year⟩,
   ⟨.month, .geC, startDate.month⟩,
   ⟨.month, .leC, endDate.month⟩]

/-- `read_cases_by_date_range(start_date, end_date)` over the rows of the
partitioned tree: the engine returns the rows satisfying the WHERE clause. -/
def read_cases_by_date_range (rows : List CaseRow)
    (startDate endDate : PyDate) : List CaseRow :=
  rows.filter (fun r => evalWhere r (date_range_where startDate endDate))

/-- The WHERE clause built by `read_cases_by_date(year, month, day)`:
`where_clauses = [f"year = {year}"]`, appending `month = ...` and
`day = ...` only for supplied optional arguments, joined with " AND ". -/
def date_where (year : Nat) (month day : Option Nat) : List PCond :=
  [⟨.year, .eqC, year⟩]
    ++ (match month with
        | some m => [⟨.month, .eqC, m⟩]
        | none => [])
    ++ (match day with
        | some d => [⟨.day, .eqC, d⟩]
        | none => [])

/-- `read_cases_by_date(year, month, day)` over the rows of the
partitioned tree. -/
def read_cases_by_date (rows : List CaseRow) (year : Nat)
    (month day : Option Nat) : List CaseRow :=
  rows.filter (fun r => evalWhere r (date_where year month day))

/-! ### `query_cases` dispatch (Python str.strip / str.upper / startswith) -/

/-- The whitespace characters stripped by Python `str.strip()` (ASCII
range; this warehouse passes SQL text). -/
def pyWs (c : Char) : Bool :=
  c == ' ' || c == '\t' || c == '\n' || c == '\r' || c == '\x0b' || c == '\x0c'

/-- Left part of Python `str.strip()`: drop leading whitespace. -/
def stripLeftL (l : List Char) : List Char :=
  l.dropWhile pyWs

/-- Right part of Python `str.strip()`: drop trailing whitespace
(recursive formulation: a character survives unless it is whitespace and
everything after it was stripped away). -/
def stripRightL : List Char → List Char
  | [] => []
  | c :: l =>
    match stripRightL l with
    | [] => if pyWs c then [] else [c]
    | r :: rs => c :: r :: rs

/-- Python `str.strip()`: drop leading and trailing whitespace. -/
def pyStripL (l : List Char) : List Char :=
  stripRightL (stripLeftL l)

/-- `startswith` on character lists: the first argument is the pattern. -/
def startsWithChars : List Char → List Char → Bool
  | [], _ => true
  | _ :: _, [] => false
  | p :: ps, c :: cs => p == c && startsWithChars ps cs

/-- The characters of the pattern `'SELECT'`. -/
def selectChars : List Char := ['S', 'E', 'L', 'E', 'C', 'T']

/-- The code's dispatch test in `query_cases`:
`sql_filter.strip().upper().startswith('SELECT')`.  Python `str.upper()`
is modelled by `Char.toUpper` (they agree on ASCII SQL text). -/
def checkSelect (s : String) : Bool :=
  startsWithChars selectChars ((pyStripL s.data).map Char.toUpper)

/-- The claim's dispatch condition: after stripping leading whitespace
only, the string begins with `SELECT` under case-insensitive comparison
(both sides uppercased). -/
def specSelectCheck (s : String) : Bool :=
  startsWithChars selectChars ((stripLeftL s.data).map Char.toUpper)

/-- The query `query_cases` ends up executing: either the input string
verbatim, or the full-partitioned-tree `SELECT * FROM read_parquet(...)`
with the input interpolated after `WHERE`. -/
inductive QueryForm where
  | verbatim (q : String)
  | wrappedWhere (w : String)
deriving DecidableEq, Repr

/-- `query_cases(sql_filter)` query construction: use the input verbatim
when the dispatch test fires, otherwise wrap it as the WHERE clause of
the full partitioned read. -/
def query_cases_query (sql_filter : String) : QueryForm :=
  if checkSelect sql_filter then .verbatim sql_filter
  else .wrappedWhere sql_filter

/-! ### src/config/duckdb_adapter.py : adapter state machine

`DuckDBAdapter` holds `self.conn` (None or a live engine connection).
The engine world is modelled inside the same state: `nextHandle` supplies
the identity of a freshly opened connection, `tables` is the engine
catalog (table name paired with its rows, rows abstracted as `Nat`).
Every adapter method returns the new state, the list of engine-level
calls it performed (the observable trace), and its Python return value.
The concrete SQL statements the adapter issues against its own catalog
(`DROP TABLE`, `CREATE TABLE ... AS SELECT * FROM df`, `INSERT INTO`)
are interpreted as their effect on `tables`. -/

/-- Engine-level calls observable from the adapter. -/
inductive ECall where
  | openConn (h : Nat)
  | setMemoryLimit (h : Nat)
  | setThreads (h : Nat)
  | queryCall (q : String)
  | dropTableCall (n : String)
  | createTableCall (n : String)
  | insertCall (n : String)
  | rollbackCall (h : Nat)
  | commitCall (h : Nat)
  | closeCall (h : Nat)
deriving DecidableEq, Repr

/-- Adapter instance state plus the engine world it owns. -/
structure AdapterM where
  conn : Option Nat
  nextHandle : Nat
  tables : List (String × List Nat)
deriving DecidableEq, Repr

/-- Result of one adapter method: new state, engine calls, return value. -/
structure StepR (α : Type) where
  state : AdapterM
  calls : List ECall
  ret : α
deriving DecidableEq, Repr

/-- `DuckDBAdapter.connect`: when `self.conn is None`, open the engine on
the database file and apply the two configuration pragmas; otherwise
return the existing handle untouched. -/
def connect (a : AdapterM) : StepR Nat :=
  match a.conn with
  | some h => ⟨a, [], h⟩
  | none =>
    let h := a.nextHandle
    ⟨{ a with conn := some h, nextHandle := h + 1 },
     [.openConn h, .setMemoryLimit h, .setThreads h], h⟩

/-- `DuckDBAdapter.close`: release the handle when present, else no-op. -/
def close (a : AdapterM) : StepR Unit :=
  match a.conn with
  | some h => ⟨{ a with conn := none }, [.closeCall h], ()⟩
  | none => ⟨a, [], ()⟩

/-- `DuckDBAdapter.execute`: lazily connect, then run the query on the
engine connection. -/
def execute (a : AdapterM) (q : String) : StepR Unit :=
  let c := connect a
  ⟨c.state, c.calls ++ [.queryCall q], ()⟩

/-- `DuckDBAdapter.execute_many`: lazily connect, then run the query once
per parameter list entry, sequentially. -/
def execute_many (a : AdapterM) (q : String) (ps : List (List String)) :
    StepR Unit :=
  let c := connect a
  ⟨c.state, c.calls ++ ps.map (fun _ => ECall.queryCall q), ()⟩

/-- `DuckDBAdapter.fetch_one`: execute, then materialize one row. -/
def fetch_one (a : AdapterM) (q : String) : StepR Unit :=
  execute a q

/-- `DuckDBAdapter.fetch_all`: execute, then materialize all rows. -/
def fetch_all (a : AdapterM) (q : String) : StepR Unit :=
  execute a q

/-- `DuckDBAdapter.fetch_df`: execute, then materialize a DataFrame. -/
def fetch_df (a : AdapterM) (q : String) : StepR Unit :=
  execute a q

/-- The catalog-count query text issued by `table_exists`. -/
def catalogCountSql : String :=
  "SELECT COUNT(*) FROM information_schema.tables WHERE table_name = ?"

/-- The count in `information_schema.tables` for a given name is
positive, i.e. `result[0] > 0`. -/
def hasTableB (ts : List (String × List Nat)) (n : String) : Bool :=
  decide (0 < (ts.filter (fun t => t.fst == n)).length)

/-- `DuckDBAdapter.table_exists`: `fetch_one` the catalog count for the
name and compare it with zero. -/
def table_exists (a : AdapterM) (table_name : String) : StepR Bool :=
  let c := fetch_one a catalogCountSql
  ⟨c.state, c.calls, hasTableB c.state.tables table_name⟩

/-- A single-quote character, as wrapped around the table name inside the
ValueError message text. -/
def sq : String := String.singleton (Char.ofNat 39)

/-- `DuckDBAdapter.create_table_from_df(df, table_name, if_exists)`:
lazily connect; look the table up; with `'fail'` raise a ValueError when
it exists; with `'replace'` drop it first; with `'append'` insert into it
when it exists; otherwise create it (the engine itself rejects creating a
table that still exists — that engine error propagates). -/
def create_table_from_df (a : AdapterM) (df : List Nat)
    (table_name : String) (if_exists : String) : StepR (Except String Unit) :=
  let c := connect a
  let ex := table_exists c.state table_name
  let pre := c.calls ++ ex.calls
  if ex.ret && (if_exists == "fail") then
    ⟨ex.state, pre,
     Except.error ("Table " ++ sq ++ table_name ++ sq ++ " already exists")⟩
  else
    let dropped : AdapterM × List ECall :=
      if ex.ret && (if_exists == "replace") then
        ({ ex.state with
            tables := ex.state.tables.filter (fun t => t.fst != table_name) },
         [ECall.dropTableCall table_name])
      else (ex.state, [])
    if (if_exists == "append") && ex.ret then
      ⟨{ dropped.fst with
          tables := dropped.fst.tables.map
            (fun t => if t.fst == table_name then (t.fst, t.snd ++ df) else t) },
       pre ++ dropped.snd ++ [ECall.insertCall table_name], Except.ok ()⟩
    else
      if hasTableB dropped.fst.tables table_name then
        ⟨dropped.fst,
         pre ++ dropped.snd ++ [ECall.createTableCall table_name],
         Except.error "Catalog Error: table already exists"⟩
      else
        ⟨{ dropped.fst with
            tables := dropped.fst.tables ++ [(table_name, df)] },
         pre ++ dropped.snd ++ [ECall.createTableCall table_name],
         Except.ok ()⟩

/-- `DuckDBAdapter.create_table_from_parquet(parquet_path, table_name,
if_exists)`: raise FileNotFoundError when the source file is absent
(before touching the engine); otherwise look the table up (which lazily
connects through `fetch_one`), apply the same `if_exists` branching as
`create_table_from_df` sourced from the file's rows, and finally
`fetch_one` the row count of the new table.  The filesystem `fs` maps
each present parquet path to the rows stored in it. -/
def create_table_from_parquet (a : AdapterM)
    (fs : List (List String × List Nat)) (parquet_path : List String)
    (table_name : String) (if_exists : String) : StepR (Except String Unit) :=
  match List.lookup parquet_path fs with
  | none => ⟨a, [], Except.error "Parquet file not found"⟩
  | some rows =>
    let ex := table_exists a table_name
    if ex.ret && (if_exists == "fail") then
      ⟨ex.state, ex.calls,
       Except.error ("Table " ++ sq ++ table_name ++ sq ++ " already exists")⟩
    else
      let dropped : AdapterM × List ECall :=
        if ex.ret && (if_exists == "replace") then
          ({ ex.state with
              tables := ex.state.tables.filter (fun t => t.fst != table_name) },
           [ECall.dropTableCall table_name])
        else (ex.state, [])
      if (if_exists == "append") && ex.ret then
        ⟨{ dropped.fst with
            tables := dropped.fst.tables.map
              (fun t => if t.fst == table_name then (t.fst, t.snd ++ rows) else t) },
         ex.calls ++ dropped.snd
           ++ [ECall.insertCall table_name,
               ECall.queryCall ("SELECT COUNT(*) FROM " ++ table_name)],
         Except.ok ()⟩
      else
        if hasTableB dropped.fst.tables table_name then
          ⟨dropped.fst,
           ex.calls ++ dropped.snd ++ [ECall.createTableCall table_name],
           Except.error "Catalog Error: table already exists"⟩
        else
          ⟨{ dropped.fst with
              tables := dropped.fst.tables ++ [(table_name, rows)] },
           ex.calls ++ dropped.snd
             ++ [ECall.createTableCall table_name,
                 ECall.queryCall ("SELECT COUNT(*) FROM " ++ table_name)],
           Except.ok ()⟩

/-- `DuckDBAdapter.export_to_parquet(query, output_path)`: create parent
directories (a filesystem-only effect), then execute the interpolated
COPY statement through the lazy-connecting `execute`. -/
def export_to_parquet (a : AdapterM) (q : String)
    (output_path : List String) : StepR Unit :=
  execute a ("COPY (" ++ q ++ ") TO " ++ sq
    ++ String.intercalate "/" output_path ++ sq
    ++ " (FORMAT PARQUET, COMPRESSION ZSTD)")

/-- `DuckDBAdapter.get_table_info(table_name)`: `fetch_df` the DESCRIBE
statement. -/
def get_table_info (a : AdapterM) (table_name : String) : StepR Unit :=
  fetch_df a ("DESCRIBE " ++ table_name)

/-- `DuckDBAdapter.rollback`: delegate to the engine when connected. -/
def rollback (a : AdapterM) : StepR Unit :=
  match a.conn with
  | some h => ⟨a, [.rollbackCall h], ()⟩
  | none => ⟨a, [], ()⟩

/-- `DuckDBAdapter.commit`: delegate to the engine when connected. -/
def commit (a : AdapterM) : StepR Unit :=
  match a.conn with
  | some h => ⟨a, [.commitCall h], ()⟩
  | none => ⟨a, [], ()⟩

/-- `DuckDBAdapter.vacuum`: lazily connect, then `CHECKPOINT`. -/
def vacuum (a : AdapterM) : StepR Unit :=
  let c := connect a
  ⟨c.state, c.calls ++ [.queryCall "CHECKPOINT"], ()⟩

/-- `DatabaseInterface.__enter__`: `return self.connect()`. -/
def __enter__ (a : AdapterM) : StepR Nat :=
  connect a

/-- `DatabaseInterface.__exit__`: on an in-scope exception first
`self.rollback()`, then always `self.close()`. -/
def __exit__ (a : AdapterM) (excPresent : Bool) : StepR Unit :=
  let r1 := if excPresent then rollback a else ⟨a, [], ()⟩
  let r2 := close r1.state
  ⟨r2.state, r1.calls ++ r2.calls, ()⟩

/-- One invocation of any adapter method: all of `connect`, `close`,
`execute`, `execute_many`, `fetch_one`, `fetch_all`, `fetch_df`,
`table_exists`, `create_table_from_df`, `create_table_from_parquet`,
`export_to_parquet`, `get_table_info`, `rollback`, `commit`, `vacuum`
from duckdb_adapter.py, plus the interface's scope entry and exit. -/
inductive AdapterOp where
  | connectOp
  | closeOp
  | executeOp (q : String)
  | executeManyOp (q : String) (ps : List (List String))
  | fetchOneOp (q : String)
  | fetchAllOp (q : String)
  | fetchDfOp (q : String)
  | tableExistsOp (n : String)
  | createDfOp (df : List Nat) (n : String) (ie : String)
  | createParquetOp (fs : List (List String × List Nat))
      (path : List String) (n : String) (ie : String)
  | exportParquetOp (q : String) (path : List String)
  | tableInfoOp (n : String)
  | rollbackOp
  | commitOp
  | vacuumOp
  | enterOp
  | exitOp (exc : Bool)

/-- Run one adapter method, keeping its state change and engine calls. -/
def runOp (a : AdapterM) : AdapterOp → AdapterM × List ECall
  | .connectOp => ((connect a).state, (connect a).calls)
  | .closeOp => ((close a).state, (close a).calls)
  | .executeOp q => ((execute a q).state, (execute a q).calls)
  | .executeManyOp q ps =>
    ((execute_many a q ps).state, (execute_many a q ps).calls)
  | .fetchOneOp q => ((fetch_one a q).state, (fetch_one a q).calls)
  | .fetchAllOp q => ((fetch_all a q).state, (fetch_all a q).calls)
  | .fetchDfOp q => ((fetch_df a q).state, (fetch_df a q).calls)
  | .tableExistsOp n => ((table_exists a n).state, (table_exists a n).calls)
  | .createDfOp df n ie =>
    ((create_table_from_df a df n ie).state, (create_table_from_df a df n ie).calls)
  | .createParquetOp fs path n ie =>
    ((create_table_from_parquet a fs path n ie).state,
     (create_table_from_parquet a fs path n ie).calls)
  | .exportParquetOp q path =>
    ((export_to_parquet a q path).state, (export_to_parquet a q path).calls)
  | .tableInfoOp n =>
    ((get_table_info a n).state, (get_table_info a n).calls)
  | .rollbackOp => ((rollback a).state, (rollback a).calls)
  | .commitOp => ((commit a).state, (commit a).calls)
  | .vacuumOp => ((vacuum a).state, (vacuum a).calls)
  | .enterOp => ((__enter__ a).state, (__enter__ a).calls)
  | .exitOp exc => ((__exit__ a exc).state, (__exit__ a exc).calls)

/-- The connection-opening calls inside a trace. -/
def opens (cs : List ECall) : List ECall :=
  cs.filter fun c =>
    match c with
    | .openConn _ => true
    | _ => false

/-- The catalog-mutating calls (drop, create, insert) inside a trace. -/
def mutCalls (cs : List ECall) : List ECall :=
  cs.filter fun c =>
    match c with
    | .dropTableCall _ => true
    | .createTableCall _ => true
    | .insertCall _ => true
    | _ => false

/-! ### src/config/database_config.py : the factory -/

/-- The constructed `DuckDBAdapter(db_path, memory_limit, threads)`
configuration. -/
structure DuckDBAdapter where
  db_path : String
  memory_limit : String
  threads : Nat
deriving DecidableEq, Repr

/-- `DB_PATH = "dwh.duckdb"`. -/
def DB_PATH : String := "dwh.duckdb"

/-- `DEFAULT_MEMORY_LIMIT = "4GB"`. -/
def DEFAULT_MEMORY_LIMIT : String := "4GB"

/-- `DEFAULT_THREADS = 4`. -/
def DEFAULT_THREADS : Nat := 4

/-- Python `str.lower()`, modelled by `Char.toLower` (they agree on the
ASCII backend names used here). -/
def pyLower (s : String) : String :=
  ⟨s.data.map Char.toLower⟩

/-- Case-insensitive equality of two strings: equal after lowering. -/
def caseInsensitiveEq (a b : String) : Bool :=
  pyLower a == pyLower b

/-- `get_database(db_type, db_path, **kwargs)`: for a name lowering to
`"duckdb"` build the adapter with the supplied path and the
`kwargs.get(..., DEFAULT)` configuration; any other name raises
ValueError. -/
def get_database (db_type : String) (db_path : String)
    (memory_limit : Option String) (threads : Option Nat) :
    Except String DuckDBAdapter :=
  if pyLower db_type == "duckdb" then
    Except.ok ⟨db_path, memory_limit.getD DEFAULT_MEMORY_LIMIT,
               threads.getD DEFAULT_THREADS⟩
  else
    Except.error ("Unsupported database type: " ++ db_type)

/-! ### The value bound by `with adapter as c` (claim C10) -/

/-- What a `with` statement can bind: the adapter instance itself, or the
engine-native connection object. -/
inductive BoundValue where
  | adapterSelf
  | engineConn (h : Nat)
deriving DecidableEq, Repr

/-- Which type a method invoked on the bound value resolves against. -/
inductive MethodTarget where
  | adapterIface
  | engineConnType
deriving DecidableEq, Repr

/-- Method resolution on the bound value. -/
def resolveTarget : BoundValue → MethodTarget
  | .adapterSelf => .adapterIface
  | .engineConn _ => .engineConnType

/-- The value `__enter__` hands to the `with` binding:
`return self.connect()` returns the engine connection from `connect`,
not the adapter instance. -/
def enter_bound (a : AdapterM) : StepR BoundValue :=
  let c := connect a
  ⟨c.state, c.calls, BoundValue.engineConn c.ret⟩

end DWH

namespace DWH

/-! ### Theorems for claims C1 and C2 -/

/-- `pad2` yields exactly two characters for every `n < 100`. -/
theorem pad2_length_fin : ∀ m : Fin 100, (pad2 m.val).length = 2 := by decide

theorem pad2_length {n : Nat} (h : n < 100) : (pad2 n).length = 2 :=
  pad2_length_fin ⟨n, h⟩

/-- Claim C2: for every date, the Loader's partition path is
`<base>/year=<Y>/month=<MM>/day=<DD>` with two-digit zero-padded month and
day, and the file written there is named `case_history_<YYYYMMDD>.parquet`
with `YYYYMMDD` the year, month and day digits of the date. -/
theorem c2_loader_partition_path_and_filename
    (base : List String) (d : PyDate)
    (hm : d.month < 100) (hd : d.day < 100) :
    save_output_path base d =
      base ++ ["year=" ++ Nat.repr d.year,
               "month=" ++ pad2 d.month,
               "day=" ++ pad2 d.day,
               "case_history_" ++ Nat.repr d.year ++ pad2 d.month
                 ++ pad2 d.day ++ ".parquet"]
      ∧ (pad2 d.month).length = 2 ∧ (pad2 d.day).length = 2 := by
  refine ⟨?_, pad2_length hm, pad2_length hd⟩
  simp [save_output_path, get_hive_partition_path, save_filename, strftimeYmd,
    String.append_assoc]

/-- Witness for C2 at the concrete date 2025-02-11. -/
theorem c2_loader_partition_path_and_filename_witness :
    (2 : Nat) < 100 ∧ (11 : Nat) < 100 ∧
    save_output_path RAW_DATA_PATH ⟨2025, 2, 11⟩ =
      RAW_DATA_PATH ++ ["year=" ++ Nat.repr 2025,
               "month=" ++ pad2 2,
               "day=" ++ pad2 11,
               "case_history_" ++ Nat.repr 2025 ++ pad2 2
                 ++ pad2 11 ++ ".parquet"]
      ∧ (pad2 2).length = 2 ∧ (pad2 11).length = 2 :=
  ⟨by decide, by decide,
   c2_loader_partition_path_and_filename RAW_DATA_PATH ⟨2025, 2, 11⟩
     (by decide) (by decide)⟩

/-- Claim C1 fails on the code: for extraction date 2025-02-11 the Loader
writes `data/raw/case_history/year=2025/month=02/day=11/case_history_20250211.parquet`,
while the day-by-day discovery checks existence of
`data/raw/case_history/2025/02/11/casos_rrhh_20250211.parquet`; on a
filesystem holding exactly the written file, discovery over the inclusive
one-day range returns nothing. -/
theorem c1_loader_file_invisible_to_discovery :
    dateLe ⟨2025, 2, 11⟩ ⟨2025, 2, 11⟩ = true
    ∧ save_output_path RAW_DATA_PATH ⟨2025, 2, 11⟩ =
        ["data", "raw", "case_history", "year=2025", "month=02", "day=11",
         "case_history_20250211.parquet"]
    ∧ get_raw_file_path ⟨2025, 2, 11⟩ =
        ["data", "raw", "case_history", "2025", "02", "11",
         "casos_rrhh_20250211.parquet"]
    ∧ get_raw_file_path ⟨2025, 2, 11⟩ ≠ save_output_path RAW_DATA_PATH ⟨2025, 2, 11⟩
    ∧ list_raw_files_in_range [save_output_path RAW_DATA_PATH ⟨2025, 2, 11⟩]
        ⟨2025, 2, 11⟩ ⟨2025, 2, 11⟩ = [] := by
  decide

/-! ### Theorems for claims C3 and C4 -/

/-- Claim C3: `read_cases_by_date_range` returns exactly the rows whose
partition columns satisfy the two independent year bounds and month
bounds, with the day column unconstrained (so it is not a continuous
date-range filter). -/
theorem c3_date_range_filter_semantics
    (rows : List CaseRow) (startDate endDate : PyDate) (r : CaseRow) :
    r ∈ read_cases_by_date_range rows startDate endDate ↔
      r ∈ rows ∧ startDate.year ≤ r.year ∧ r.year ≤ endDate.year
        ∧ startDate.month ≤ r.month ∧ r.month ≤ endDate.month := by
  simp [read_cases_by_date_range, evalWhere, date_range_where, evalCond,
    colVal, List.mem_filter, and_assoc]

/-- Claim C4: `read_cases_by_date` returns exactly the rows matching the
conjunction of equality constraints on the supplied arguments only
(always the year; month and day only when supplied). -/
theorem c4_date_filter_semantics
    (rows : List CaseRow) (year : Nat) (month day : Option Nat)
    (r : CaseRow) :
    r ∈ read_cases_by_date rows year month day ↔
      r ∈ rows ∧ r.year = year
        ∧ (∀ m, month = some m → r.month = m)
        ∧ (∀ d, day = some d → r.day = d) := by
  cases month <;> cases day <;>
    simp [read_cases_by_date, evalWhere, date_where, evalCond, colVal,
      List.mem_filter, and_assoc]

/-! ### String lemmas and theorem for claim C8 -/

/-- Whitespace characters are fixed points of `Char.toUpper`. -/
theorem toUpper_of_ws {c : Char} (h : pyWs c = true) : Char.toUpper c = c := by
  simp [pyWs] at h
  rcases h with ((((h | h) | h) | h) | h) | h <;> subst h <;> decide

/-- `startswith` is stable under appending to the scanned string. -/
theorem startsWithChars_append :
    ∀ (p l t : List Char), startsWithChars p l = true →
      startsWithChars p (l ++ t) = true := by
  intro p
  induction p with
  | nil => intro l t _; rfl
  | cons p ps ih =>
    intro l t h
    cases l with
    | nil => simp [startsWithChars] at h
    | cons c cs =>
      simp only [startsWithChars, Bool.and_eq_true] at h ⊢
      exact ⟨h.1, ih cs t h.2⟩

/-- Right-stripping a character that is not whitespace keeps it. -/
theorem stripRightL_cons_of_not_ws {c : Char} (l : List Char)
    (hc : pyWs c = false) : stripRightL (c :: l) = c :: stripRightL l := by
  cases h : stripRightL l <;> simp [stripRightL, h, hc]

/-- The right-stripped list is an initial segment of the original. -/
theorem stripRightL_eq_append :
    ∀ l : List Char, ∃ t, l = stripRightL l ++ t := by
  intro l
  induction l with
  | nil => exact ⟨[], rfl⟩
  | cons c l ih =>
    obtain ⟨t, ht⟩ := ih
    cases h : stripRightL l with
    | nil =>
      by_cases hc : pyWs c = true
      · exact ⟨c :: l, by simp [stripRightL, h, hc]⟩
      · refine ⟨t, ?_⟩
        have hc' : pyWs c = false := by
          cases hcc : pyWs c
          · rfl
          · exact absurd hcc hc
        have h2 : stripRightL (c :: l) = [c] := by
          simp [stripRightL, h, hc']
        rw [h2]
        rw [h] at ht
        simp only [List.nil_append] at ht
        simp [ht]
    | cons r rs =>
      refine ⟨t, ?_⟩
      rw [h] at ht
      simp [stripRightL, h]
      exact ht

/-- If the uppercase of a string starts with a whitespace-free pattern,
so does the uppercase of its right-stripped form. -/
theorem startsWithChars_toUpper_stripRightL :
    ∀ (l : List Char) (p : List Char), (∀ c ∈ p, pyWs c = false) →
      startsWithChars p (l.map Char.toUpper) = true →
      startsWithChars p ((stripRightL l).map Char.toUpper) = true := by
  intro l
  induction l with
  | nil =>
    intro p _ h
    cases p with
    | nil => rfl
    | cons q qs => simp [startsWithChars] at h
  | cons c l ih =>
    intro p hp h
    cases p with
    | nil => rfl
    | cons q qs =>
      simp only [List.map_cons, startsWithChars, Bool.and_eq_true,
        beq_iff_eq] at h
      have hc : pyWs c = false := by
        cases hcc : pyWs c
        · rfl
        · exfalso
          have hq := hp q (List.mem_cons_self q qs)
          rw [h.1, toUpper_of_ws hcc, hcc] at hq
          exact Bool.noConfusion hq
      rw [stripRightL_cons_of_not_ws l hc]
      simp only [List.map_cons, startsWithChars, Bool.and_eq_true,
        beq_iff_eq]
      exact ⟨h.1, ih qs (fun x hx => hp x (List.mem_cons_of_mem q hx)) h.2⟩

/-- The code's dispatch test (full strip, then upper, then startswith)
agrees with the claim's condition (leading strip only): trailing
whitespace cannot affect a `SELECT`-prefix test. -/
theorem checkSelect_eq_specSelectCheck (s : String) :
    checkSelect s = specSelectCheck s := by
  unfold checkSelect specSelectCheck pyStripL
  obtain ⟨t, ht⟩ := stripRightL_eq_append (stripLeftL s.data)
  cases hspec : startsWithChars selectChars
      ((stripLeftL s.data).map Char.toUpper) with
  | true =>
    exact startsWithChars_toUpper_stripRightL (stripLeftL s.data)
      selectChars (by decide) hspec
  | false =>
    cases hcode : startsWithChars selectChars
        ((stripRightL (stripLeftL s.data)).map Char.toUpper) with
    | true =>
      exfalso
      have happ := startsWithChars_append selectChars
        ((stripRightL (stripLeftL s.data)).map Char.toUpper)
        (t.map Char.toUpper) hcode
      rw [← List.map_append, ← ht, hspec] at happ
      exact Bool.noConfusion happ
    | false => rfl

/-- Claim C8: `query_cases(s)` uses `s` verbatim exactly when `s`, after
stripping leading whitespace, begins with `SELECT` case-insensitively;
otherwise it wraps `s` as the WHERE clause of the full partitioned read. -/
theorem c8_query_cases_dispatch (s : String) :
    query_cases_query s =
      (if specSelectCheck s then QueryForm.verbatim s
       else QueryForm.wrappedWhere s) := by
  unfold query_cases_query
  rw [checkSelect_eq_specSelectCheck]

/-! ### Adapter lemmas and theorems for claims C5, C6, C7, C9, C10 -/

/-- `connect` never touches the catalog. -/
theorem connect_tables (a : AdapterM) : (connect a).state.tables = a.tables := by
  cases hc : a.conn <;> simp [connect, hc]

/-- `connect` on an already-connected state is the identity with no
engine calls, returning the stored handle. -/
theorem connect_idem (a : AdapterM) :
    connect (connect a).state = ⟨(connect a).state, [], (connect a).ret⟩ := by
  cases hc : a.conn <;> simp [connect, hc]

/-- `opens` distributes over trace concatenation. -/
theorem opens_append (l₁ l₂ : List ECall) :
    opens (l₁ ++ l₂) = opens l₁ ++ opens l₂ := by
  simp [opens, List.filter_append]

/-- A repeated query trace holds no connection-opening call. -/
theorem opens_queryMap (q : String) (ps : List (List String)) :
    opens (ps.map (fun _ => ECall.queryCall q)) = [] := by
  induction ps with
  | nil => rfl
  | cons p ps ih => exact ih

/-- `connect` opens at most one connection. -/
theorem opens_connect_length (a : AdapterM) :
    (opens (connect a).calls).length ≤ 1 := by
  cases hc : a.conn <;> simp [connect, hc, opens]

/-- Every engine call of `create_table_from_df` that could open a
connection comes from its initial lazy `connect`. -/
theorem opens_create_table_from_df (a : AdapterM) (df : List Nat)
    (n ie : String) :
    opens (create_table_from_df a df n ie).calls = opens (connect a).calls := by
  simp only [create_table_from_df, table_exists, fetch_one, execute,
    connect_idem]
  split_ifs <;>
    simp [opens_append, opens, List.filter]

/-- Every engine call of `create_table_from_parquet` that could open a
connection comes from the lazy `connect` inside its table lookup (and a
missing source file stops it before any engine call). -/
theorem opens_create_table_from_parquet (a : AdapterM)
    (fs : List (List String × List Nat)) (p : List String) (n ie : String) :
    opens (create_table_from_parquet a fs p n ie).calls
        = opens (connect a).calls
      ∨ opens (create_table_from_parquet a fs p n ie).calls = [] := by
  simp only [create_table_from_parquet, table_exists, fetch_one, execute]
  cases List.lookup p fs with
  | none => exact Or.inr rfl
  | some rows =>
    refine Or.inl ?_
    split_ifs <;>
      simp [opens_append, opens, List.filter]

/-- Claim C5: with `if_exists='fail'`, `create_table_from_df` raises the
ValueError exactly when the table already exists, and in that case
performs no drop, create, or insert and leaves the catalog unchanged;
otherwise it creates the table. -/
theorem c5_create_table_fail_semantics (a : AdapterM) (df : List Nat)
    (n : String) :
    (create_table_from_df a df n "fail").ret =
        (if hasTableB a.tables n
         then Except.error ("Table " ++ sq ++ n ++ sq ++ " already exists")
         else Except.ok ())
      ∧ mutCalls (create_table_from_df a df n "fail").calls =
        (if hasTableB a.tables n then [] else [ECall.createTableCall n])
      ∧ (create_table_from_df a df n "fail").state.tables =
        (if hasTableB a.tables n then a.tables else a.tables ++ [(n, df)]) := by
  cases hconn : a.conn <;>
    by_cases hT : hasTableB a.tables n <;>
      simp [create_table_from_df, table_exists, fetch_one, execute, connect,
        hconn, hT, mutCalls, List.filter_append, List.filter]

/-- Claim C6: entering the scope establishes the connection; on exit an
in-scope exception triggers an engine rollback before the engine close,
a normal exit closes without rollback, and in both cases the connection
ends closed. -/
theorem c6_scope_exit_semantics (a : AdapterM) (exc : Bool) :
    (__enter__ a).state.conn = some ((__enter__ a).ret)
      ∧ (__exit__ (__enter__ a).state exc).calls =
        (if exc then [ECall.rollbackCall ((__enter__ a).ret)] else [])
          ++ [ECall.closeCall ((__enter__ a).ret)]
      ∧ (__exit__ (__enter__ a).state exc).state.conn = none := by
  cases hconn : a.conn <;> cases exc <;>
    simp [__enter__, __exit__, connect, rollback, close, hconn]

/-- Claim C7: `connect` on a connected adapter returns the existing
handle with no engine calls (no new connection, no pragmas); `close` on
a disconnected adapter is a no-op; no adapter operation opens a
connection while one is held; and no operation ever opens more than one
connection, so each instance holds at most one. -/
theorem c7_single_connection_invariant (a : AdapterM) (h : Nat)
    (op : AdapterOp) :
    connect { a with conn := some h } = ⟨{ a with conn := some h }, [], h⟩
      ∧ close { a with conn := none } = ⟨{ a with conn := none }, [], ()⟩
      ∧ opens (runOp { a with conn := some h } op).snd = []
      ∧ (opens (runOp a op).snd).length ≤ 1 := by
  refine ⟨rfl, rfl, ?_, ?_⟩
  · cases op
    case exitOp exc =>
      cases exc <;>
        simp [runOp, __exit__, rollback, close, opens, List.filter]
    case createDfOp df n ie =>
      simp only [runOp]
      rw [opens_create_table_from_df]
      simp [connect, opens]
    case createParquetOp fs path n ie =>
      simp only [runOp]
      rcases opens_create_table_from_parquet { a with conn := some h }
          fs path n ie with ho | ho
      · rw [ho]
        simp [connect, opens]
      · rw [ho]
    all_goals
      simp [runOp, __enter__, connect, close, execute, execute_many,
        fetch_one, fetch_all, fetch_df, table_exists, export_to_parquet,
        get_table_info, rollback, commit, vacuum, opens_append,
        opens_queryMap, opens, List.filter]
  · cases op
    case exitOp exc =>
      cases exc <;> cases hconn : a.conn <;>
        simp [runOp, __exit__, rollback, close, opens, List.filter, hconn]
    case createDfOp df n ie =>
      simp only [runOp]
      rw [opens_create_table_from_df]
      exact opens_connect_length a
    case createParquetOp fs path n ie =>
      simp only [runOp]
      rcases opens_create_table_from_parquet a fs path n ie with ho | ho
      · rw [ho]
        exact opens_connect_length a
      · rw [ho]
        simp
    all_goals
      cases hconn : a.conn <;>
        simp [runOp, __enter__, connect, close, execute, execute_many,
          fetch_one, fetch_all, fetch_df, table_exists, export_to_parquet,
          get_table_info, rollback, commit, vacuum, opens_append,
          opens_queryMap, opens, List.filter, hconn]

/-- Claim C9: the factory raises exactly for names that are not
case-insensitively `duckdb`, and otherwise returns the adapter with the
supplied path and the supplied-or-default memory limit and thread count. -/
theorem c9_factory_dispatch (s p : String) (ml : Option String)
    (th : Option Nat) :
    (get_database s p ml th).isOk = caseInsensitiveEq s "duckdb"
      ∧ get_database s p ml th =
        (if caseInsensitiveEq s "duckdb"
         then Except.ok ⟨p, ml.getD DEFAULT_MEMORY_LIMIT,
                         th.getD DEFAULT_THREADS⟩
         else Except.error ("Unsupported database type: " ++ s)) := by
  have hlow : pyLower "duckdb" = "duckdb" := by decide
  unfold get_database caseInsensitiveEq
  rw [hlow]
  cases hc : pyLower s == "duckdb" <;> simp [hc, Except.isOk, Except.toBool]

/-- Claim C10: the context-manager entry returns the engine-native
connection produced by `connect` — the bound value is the raw handle,
never the adapter instance, so methods on it resolve against the engine
connection type. -/
theorem c10_enter_binds_raw_connection (a : AdapterM) :
    (enter_bound a).ret = BoundValue.engineConn ((connect a).ret)
      ∧ (enter_bound a).ret ≠ BoundValue.adapterSelf
      ∧ (enter_bound a).state.conn = some ((connect a).ret)
      ∧ resolveTarget (enter_bound a).ret = MethodTarget.engineConnType := by
  refine ⟨rfl, by simp [enter_bound], ?_, rfl⟩
  cases hc : a.conn <;> simp [enter_bound, connect, hc]

end DWH
